import Mathlib

/-!
Verification development for the AIWTF research-assistant repository.

The repository ships a React frontend (ResearchForm, fetchResearchResults,
ResearchResults) and a YAML configuration file for the research pipeline
(agents, tools.web_search, tools.content_extractor, tools.research_synthesizer,
memory).  The Python backend components (RetryExecutor, WebSearchTool,
ContentExtractor, ResearchSynthesizer, ConversationMemory, ResearchWorkflow)
are declared by the configuration and described by the design document but
their implementation files are not present; those components are modelled
from the specification, with the configuration values taken verbatim from
the shipped config file.
-/

/-! ## Configuration constants, taken verbatim from the shipped YAML config -/

/-- memory.max_token_limit in the config file. -/
def maxTokenLimit : Nat := 4000

/-- memory.ttl (seconds) in the config file. -/
def memoryTtl : Nat := 3600

/-- tools.web_search.max_results in the config file. -/
def maxResults : Nat := 5

/-- tools.content_extractor.max_content_length in the config file. -/
def maxContentLength : Nat := 10000

/-- tools.research_synthesizer.max_key_points in the config file. -/
def maxKeyPoints : Nat := 5

/-- tools.research_synthesizer.min_sentence_length in the config file. -/
def minSentenceLength : Nat := 50

/-- A (maxRetries, fixed delay in seconds) pair for one RetryExecutor use. -/
structure RetryConfig where
  maxRetries : Nat
  delay : ℚ
deriving DecidableEq

/-- tools.web_search retry settings in the config file: retry_attempts 3, retry_delay 2.0. -/
def webSearchRetry : RetryConfig := ⟨3, 2⟩

/-- tools.content_extractor retry settings in the config file: retry_attempts 2, retry_delay 1.0. -/
def contentExtractorRetry : RetryConfig := ⟨2, 1⟩

/-- agents retry settings in the config file: max_retries 3, retry_delay 1.0. -/
def agentsRetry : RetryConfig := ⟨3, 1⟩

/-! ## ConversationMemory

Modelled from the spec: the ConversationMemory component (its implementation
file is not in the repository excerpt; only its configuration is).  A
MemoryEntry carries topic, timestamp, tokenCount and summary; `prune` first
removes entries whose age exceeds the ttl and then evicts oldest entries
until the total token count is back under `max_token_limit`; `append`
triggers `prune` as a post-condition. -/

structure MemoryEntry where
  topic : String
  timestamp : Nat
  tokenCount : Nat
  summary : String
deriving DecidableEq

namespace ConversationMemory

/-- Total token count of a stored sequence of entries (oldest first). -/
def totalTokens (l : List MemoryEntry) : Nat := (l.map (fun e => e.tokenCount)).sum

/-- Modelled from the spec: removal of entries whose age exceeds the ttl
(an entry is evicted when now - timestamp > ttl). -/
def removeExpired (now : Nat) (l : List MemoryEntry) : List MemoryEntry :=
  l.filter (fun e => now - e.timestamp ≤ memoryTtl)

/-- Modelled from the spec: oldest-first eviction until the total token
count is at most max_token_limit.  The list is kept oldest first, so
eviction drops from the front. -/
def evictOldest : List MemoryEntry → List MemoryEntry
  | [] => []
  | e :: rest =>
    if totalTokens (e :: rest) ≤ maxTokenLimit then e :: rest
    else evictOldest rest

/-- Modelled from the spec: prune removes expired entries, then evicts
oldest entries until the memory is under the token budget. -/
def prune (now : Nat) (l : List MemoryEntry) : List MemoryEntry :=
  evictOldest (removeExpired now l)

/-- Modelled from the spec: append adds the entry at the newest end and
triggers prune as a post-condition. -/
def append (now : Nat) (e : MemoryEntry) (l : List MemoryEntry) : List MemoryEntry :=
  prune now (l ++ [e])

theorem totalTokens_nil : totalTokens [] = 0 := rfl

theorem evictOldest_total_le (l : List MemoryEntry) :
    totalTokens (evictOldest l) ≤ maxTokenLimit := by
  induction l with
  | nil => simp [evictOldest, totalTokens]
  | cons e rest ih =>
    rw [evictOldest]
    split
    · assumption
    · exact ih

theorem evictOldest_suffix (l : List MemoryEntry) : evictOldest l <:+ l := by
  induction l with
  | nil => exact List.suffix_refl _
  | cons e rest ih =>
    rw [evictOldest]
    split
    · exact List.suffix_refl _
    · exact ih.trans (List.suffix_cons e rest)

theorem mem_of_mem_evictOldest {x : MemoryEntry} {l : List MemoryEntry}
    (h : x ∈ evictOldest l) : x ∈ l :=
  (evictOldest_suffix l).subset h

theorem last_mem_evictOldest (l : List MemoryEntry) (e : MemoryEntry)
    (he : e.tokenCount ≤ maxTokenLimit) : e ∈ evictOldest (l ++ [e]) := by
  induction l with
  | nil =>
    rw [List.nil_append, evictOldest]
    have : totalTokens [e] ≤ maxTokenLimit := by
      simpa [totalTokens] using he
    simp [this]
  | cons x rest ih =>
    rw [List.cons_append, evictOldest]
    split
    · simp
    · exact ih

end ConversationMemory

open ConversationMemory in
/-- C1: for every memory state and entry, immediately after append the total
token count of the stored entries is at most max_token_limit and no stored
entry has age exceeding the ttl; append invokes prune as a post-condition. -/
theorem memory_append_invariant (now : Nat) (e : MemoryEntry) (l : List MemoryEntry) :
    append now e l = prune now (l ++ [e]) ∧
    totalTokens (append now e l) ≤ maxTokenLimit ∧
    ∀ x ∈ append now e l, now - x.timestamp ≤ memoryTtl := by
  refine ⟨rfl, evictOldest_total_le _, ?_⟩
  intro x hx
  have hx' : x ∈ removeExpired now (l ++ [e]) := mem_of_mem_evictOldest hx
  have := List.of_mem_filter hx'
  exact of_decide_eq_true this

open ConversationMemory in
/-- C1 witness: the invariant evaluated after a concrete append. -/
theorem memory_append_invariant_witness :
    totalTokens (append 10 ⟨"t", 10, 100, "s"⟩ [⟨"u", 0, 200, "v"⟩]) ≤ maxTokenLimit ∧
    10 - (⟨"t", 10, 100, "s"⟩ : MemoryEntry).timestamp ≤ memoryTtl := by
  refine ⟨(memory_append_invariant 10 ⟨"t", 10, 100, "s"⟩ [⟨"u", 0, 200, "v"⟩]).2.1, ?_⟩
  exact (memory_append_invariant 10 ⟨"t", 10, 100, "s"⟩ [⟨"u", 0, 200, "v"⟩]).2.2
    ⟨"t", 10, 100, "s"⟩ (by decide)

open ConversationMemory in
/-- C5 counterexample: the claim fails as stated.  Two concrete instances:
(1) a fresh appended entry whose own tokenCount 4001 exceeds max_token_limit
is itself evicted by the oldest-first sweep, so the newest entry is not
retained; (2) an appended entry whose age already exceeds the ttl is removed
by the ttl prune, again not retained.  In both instances the prior state sums
exactly to max_token_limit and the append pushes the total over budget. -/
theorem memory_append_newest_retained_counterexample :
    (totalTokens [⟨"old", 0, 4000, ""⟩] = maxTokenLimit ∧
     maxTokenLimit < totalTokens [⟨"old", 0, 4000, ""⟩] + 4001 ∧
     (⟨"new", 0, 4001, ""⟩ : MemoryEntry) ∉
       append 0 ⟨"new", 0, 4001, ""⟩ [⟨"old", 0, 4000, ""⟩]) ∧
    (totalTokens [⟨"old", 4000, 4000, ""⟩] = maxTokenLimit ∧
     maxTokenLimit < totalTokens [⟨"old", 4000, 4000, ""⟩] + 100 ∧
     (⟨"stale", 0, 100, ""⟩ : MemoryEntry) ∉
       append 4000 ⟨"stale", 0, 100, ""⟩ [⟨"old", 4000, 4000, ""⟩]) := by
  decide

open ConversationMemory in
/-- C5 amended: for every memory state whose entries sum to max_token_limit,
an append that pushes the total over budget evicts entries oldest-first (the
result is a suffix of the non-expired entries) until the total is back under
budget, and the newly appended entry is retained provided its age is within
the ttl and its own tokenCount is at most max_token_limit. -/
theorem memory_append_newest_retained (now : Nat) (e : MemoryEntry) (l : List MemoryEntry)
    (hfresh : now - e.timestamp ≤ memoryTtl)
    (hsmall : e.tokenCount ≤ maxTokenLimit)
    (_hfull : totalTokens l = maxTokenLimit)
    (_hover : maxTokenLimit < totalTokens l + e.tokenCount) :
    e ∈ append now e l ∧
    totalTokens (append now e l) ≤ maxTokenLimit ∧
    append now e l <:+ removeExpired now (l ++ [e]) := by
  have hkeep : removeExpired now (l ++ [e]) = removeExpired now l ++ [e] := by
    unfold removeExpired
    rw [List.filter_append, List.filter_cons, List.filter_nil,
      if_pos (decide_eq_true hfresh)]
  refine ⟨?_, evictOldest_total_le _, evictOldest_suffix _⟩
  show e ∈ evictOldest (removeExpired now (l ++ [e]))
  rw [hkeep]
  exact last_mem_evictOldest _ e hsmall

open ConversationMemory in
/-- C5 witness: the amended statement evaluated on a concrete over-budget
append; the newest entry is retained and the memory is back under budget. -/
theorem memory_append_newest_retained_witness :
    (⟨"new", 0, 500, ""⟩ : MemoryEntry) ∈
      append 0 ⟨"new", 0, 500, ""⟩ [⟨"a", 0, 2000, ""⟩, ⟨"b", 0, 2000, ""⟩] ∧
    totalTokens (append 0 ⟨"new", 0, 500, ""⟩ [⟨"a", 0, 2000, ""⟩, ⟨"b", 0, 2000, ""⟩]) ≤
      maxTokenLimit := by
  have h := memory_append_newest_retained 0 ⟨"new", 0, 500, ""⟩
    [⟨"a", 0, 2000, ""⟩, ⟨"b", 0, 2000, ""⟩] (by decide) (by decide) (by decide) (by decide)
  exact ⟨h.1, h.2.1⟩

/-! ## RetryExecutor

Modelled from the spec: the RetryExecutor component (its implementation file
is not in the repository excerpt).  It invokes the wrapped operation; on
failure it waits a fixed delay and retries until maxRetries attempts are
exhausted, then surfaces the last error.  An operation is modelled as a
function from the attempt index to that attempt's outcome; the executor
also returns the list of delays waited, so that the fixed (non-exponential)
backoff is observable. -/

def retryRun {ε α : Type} (op : Nat → Except ε α) (delay : ℚ) :
    Nat → Nat → Except ε α × List ℚ
  | i, 0 => (op i, [])
  | i, n + 1 =>
    match op i with
    | Except.ok a => (Except.ok a, [])
    | Except.error _ =>
      let rest := retryRun op delay (i + 1) n
      (rest.1, delay :: rest.2)

/-- Modelled from the spec: execute runs up to maxRetries attempts of the
operation with a fixed delay between consecutive attempts. -/
def executeRetry {ε α : Type} (op : Nat → Except ε α) (maxRetries : Nat) (delay : ℚ) :
    Except ε α × List ℚ :=
  retryRun op delay 0 (maxRetries - 1)

theorem retryRun_first_ok {ε α : Type} (op : Nat → Except ε α) (delay : ℚ)
    (i n : Nat) (a : α) (h : op i = Except.ok a) :
    retryRun op delay i n = (Except.ok a, []) := by
  cases n with
  | zero => simp [retryRun, h]
  | succ n => simp [retryRun, h]

theorem retryRun_all_fail {ε α : Type} (op : Nat → Except ε α) (delay : ℚ)
    (errs : Nat → ε) (h : ∀ i, op i = Except.error (errs i)) :
    ∀ n i, retryRun op delay i n = (Except.error (errs (i + n)), List.replicate n delay) := by
  intro n
  induction n with
  | zero => intro i; simp [retryRun, h i]
  | succ n ih =>
    intro i
    rw [retryRun, h i]
    simp only [ih (i + 1)]
    have hidx : i + 1 + n = i + (n + 1) := by omega
    rw [hidx, List.replicate_succ]

theorem executeRetry_first_ok {ε α : Type} (op : Nat → Except ε α) (m : Nat) (delay : ℚ)
    (a : α) (h : op 0 = Except.ok a) :
    executeRetry op m delay = (Except.ok a, []) := by
  unfold executeRetry
  exact retryRun_first_ok op delay 0 (m - 1) a h

theorem executeRetry_all_fail {ε α : Type} (op : Nat → Except ε α) (m : Nat) (delay : ℚ)
    (errs : Nat → ε) (h : ∀ i, op i = Except.error (errs i)) :
    executeRetry op m delay = (Except.error (errs (m - 1)), List.replicate (m - 1) delay) := by
  unfold executeRetry
  simpa using retryRun_all_fail op delay errs h (m - 1) 0

/-- C7: RetryExecutor invokes the wrapped operation (a first successful
attempt is returned as is, with no wait); on failure it waits the fixed
configured delay between attempts (every recorded wait equals the delay and
there are maxRetries - 1 of them) until maxRetries attempts are exhausted,
then surfaces the last error; and it is instantiated with the configured
pairs search {3, 2.0s}, extraction {2, 1.0s}, agent default {3, 1.0s}. -/
theorem retryExecutor_contract :
    (∀ (op : Nat → Except String String) (m : Nat) (d : ℚ) (a : String),
      op 0 = Except.ok a → executeRetry op m d = (Except.ok a, [])) ∧
    (∀ (op : Nat → Except String String) (m : Nat) (d : ℚ) (errs : Nat → String),
      (∀ i, op i = Except.error (errs i)) →
      (executeRetry op m d).1 = Except.error (errs (m - 1)) ∧
      (executeRetry op m d).2.length = m - 1 ∧
      ∀ w ∈ (executeRetry op m d).2, w = d) ∧
    webSearchRetry.maxRetries = 3 ∧ webSearchRetry.delay = 2 ∧
    contentExtractorRetry.maxRetries = 2 ∧ contentExtractorRetry.delay = 1 ∧
    agentsRetry.maxRetries = 3 ∧ agentsRetry.delay = 1 := by
  refine ⟨?_, ?_, rfl, rfl, rfl, rfl, rfl, rfl⟩
  · intro op m d a h
    exact executeRetry_first_ok op m d a h
  · intro op m d errs h
    rw [executeRetry_all_fail op m d errs h]
    refine ⟨rfl, List.length_replicate _ _, ?_⟩
    intro w hw
    exact List.eq_of_mem_replicate hw

/-- C7 witness: the contract evaluated on a concrete always-failing
operation at the web-search configuration, and on a concrete first-try
success. -/
theorem retryExecutor_contract_witness :
    executeRetry (fun _ => (Except.ok "hit" : Except String String)) 3 2 = (Except.ok "hit", []) ∧
    (executeRetry (fun i => (Except.error (toString i) : Except String String)) 3 2).1 =
      Except.error "2" ∧
    (executeRetry (fun i => (Except.error (toString i) : Except String String)) 3 2).2.length = 2 := by
  refine ⟨retryExecutor_contract.1 (fun _ => Except.ok "hit") 3 2 "hit" rfl, ?_, ?_⟩
  · exact (retryExecutor_contract.2.1 (fun i => Except.error (toString i)) 3 2
      (fun i => toString i) (fun _ => rfl)).1
  · exact (retryExecutor_contract.2.1 (fun i => Except.error (toString i)) 3 2
      (fun i => toString i) (fun _ => rfl)).2.1

/-! ## ContentExtractor

Modelled from the spec: the ContentExtractor component (its implementation
file is not in the repository excerpt).  A fetch is modelled as a function
from the attempt index to that attempt's outcome; extract runs it under its
own RetryExecutor budget, truncates successful content to
max_content_length, and converts exhausted failures into an
ExtractedDocument with success false and a failureReason. -/

structure ExtractedDocument where
  sourceUrl : String
  text : String
  success : Bool
  failureReason : Option String
deriving DecidableEq

def extract (op : Nat → Except String String) (url : String) : ExtractedDocument :=
  match (executeRetry op contentExtractorRetry.maxRetries contentExtractorRetry.delay).1 with
  | Except.ok content => ⟨url, content.take maxContentLength, true, none⟩
  | Except.error err => ⟨url, "", false, some err⟩

/-- C3: extract never propagates a fetch error: it always returns an
ExtractedDocument, either successful or carrying a failureReason; in
particular, when every attempt within the retry budget (retry_attempts 2
per configuration) fails, it returns success false with the last error as
the failureReason. -/
theorem extract_never_propagates (op : Nat → Except String String) (url : String) :
    (((extract op url).success = true ∧ (extract op url).failureReason = none) ∨
      ((extract op url).success = false ∧ (extract op url).failureReason.isSome = true)) ∧
    contentExtractorRetry.maxRetries = 2 ∧
    ∀ errs : Nat → String, (∀ i, op i = Except.error (errs i)) →
      extract op url = ⟨url, "", false, some (errs 1)⟩ := by
  refine ⟨?_, rfl, ?_⟩
  · unfold extract
    rcases h : (executeRetry op contentExtractorRetry.maxRetries
        contentExtractorRetry.delay).1 with msg | content
    · right
      simp
    · left
      simp
  · intro errs h
    unfold extract
    rw [show (executeRetry op contentExtractorRetry.maxRetries
        contentExtractorRetry.delay).1 = Except.error (errs 1) from by
      rw [executeRetry_all_fail op contentExtractorRetry.maxRetries
        contentExtractorRetry.delay errs h]
      rfl]

/-- C3 witness: a fetch that times out on every attempt yields a failed
document carrying the last timeout message, and never an exception. -/
theorem extract_never_propagates_witness :
    extract (fun _ => Except.error "timeout") "http://a" =
      ⟨"http://a", "", false, some "timeout"⟩ := by
  exact (extract_never_propagates (fun _ => Except.error "timeout") "http://a").2.2
    (fun _ => "timeout") (fun _ => rfl)

/-! ## ResearchSynthesizer

Modelled from the spec: the ResearchSynthesizer component (its
implementation file is not in the repository excerpt).  Input is filtered
to successful documents; a candidate sentence is eligible only when its
length is at least min_sentence_length; at most max_key_points key points
are produced, in document order.  Sentence splitting is modelled as
splitting on the period character, a modelling choice the spec leaves
open. -/

structure SynthesisResult where
  keyPoints : List String
  sourceUrls : List String
deriving DecidableEq

def sentencesOf (text : String) : List String := text.splitOn "."

def eligibleSentences (text : String) : List String :=
  (sentencesOf text).filter (fun s => minSentenceLength ≤ s.length)

def synthesize (docs : List ExtractedDocument) : SynthesisResult :=
  let good := docs.filter (fun d => d.success)
  ⟨(good.flatMap (fun d => eligibleSentences d.text)).take maxKeyPoints,
   good.map (fun d => d.sourceUrl)⟩

/-! ## WebSearchTool

Modelled from the spec: the WebSearchTool component (its implementation
file is not in the repository excerpt).  The provider is modelled as a
function from the attempt index to that attempt's outcome; the tool fails
with EmptyQuery on a blank topic, fails with SearchUnavailable when the
provider is unreachable after the retry budget, and otherwise returns the
provider list truncated to max_results, in provider order. -/

structure SearchResult where
  title : String
  url : String
  snippet : String
deriving DecidableEq

inductive SearchError where
  | EmptyQuery
  | SearchUnavailable
deriving DecidableEq

/-- A topic is blank when it is empty or consists only of whitespace. -/
def isBlank (s : String) : Bool := s.toList.all Char.isWhitespace

def searchTool (topic : String) (sOp : Nat → Except String (List SearchResult)) :
    Except SearchError (List SearchResult) :=
  if isBlank topic then Except.error SearchError.EmptyQuery
  else
    match (executeRetry sOp webSearchRetry.maxRetries webSearchRetry.delay).1 with
    | Except.error _ => Except.error SearchError.SearchUnavailable
    | Except.ok rs => Except.ok (rs.take maxResults)

/-- C6: for every non-blank topic on which the provider answers, search
returns the provider list truncated to max_results (5 per configuration):
its length is at most max_results and it is a prefix of the provider
ordering, so the provider relevance order is kept without re-sorting. -/
theorem search_bounded_in_provider_order (topic : String)
    (sOp : Nat → Except String (List SearchResult)) (provided : List SearchResult)
    (hb : isBlank topic = false)
    (hok : (executeRetry sOp webSearchRetry.maxRetries webSearchRetry.delay).1 =
      Except.ok provided) :
    searchTool topic sOp = Except.ok (provided.take maxResults) ∧
    (provided.take maxResults).length ≤ maxResults ∧
    provided.take maxResults <+: provided ∧
    maxResults = 5 := by
  refine ⟨?_, List.length_take_le _ _, List.take_prefix _ _, rfl⟩
  unfold searchTool
  rw [hb, hok]
  simp

/-- C6 witness: a concrete provider answer of six results is truncated to
the first five, in provider order. -/
theorem search_bounded_in_provider_order_witness :
    searchTool "rust ownership"
      (fun _ => Except.ok ((List.range 6).map (fun i => ⟨toString i, toString i, ""⟩))) =
      Except.ok (((List.range 6).map
        (fun i => (⟨toString i, toString i, ""⟩ : SearchResult))).take maxResults) ∧
    (((List.range 6).map
        (fun i => (⟨toString i, toString i, ""⟩ : SearchResult))).take maxResults).length ≤
      maxResults := by
  have h := search_bounded_in_provider_order "rust ownership"
    (fun _ => Except.ok ((List.range 6).map (fun i => ⟨toString i, toString i, ""⟩)))
    ((List.range 6).map (fun i => ⟨toString i, toString i, ""⟩)) (by decide) rfl
  exact ⟨h.1, h.2.1⟩

/-! ## ResearchWorkflow

Modelled from the spec: the ResearchWorkflow orchestrator (its
implementation file is not in the repository excerpt).  States are Idle,
Searching, Extracting, Synthesizing, Completed and the alternate terminal
Failed.  run checks the topic before entering Searching, runs the search
tool under its retry budget, extracts every returned source independently,
synthesizes the successful documents, and collects per-source extraction
failures into partialFailures.  The outcome records the visited states in
order and the number of outbound network attempts. -/

inductive WState where
  | Idle
  | Searching
  | Extracting
  | Synthesizing
  | Completed
  | Failed
deriving DecidableEq

inductive WError where
  | InvalidTopic
  | SearchUnavailable
deriving DecidableEq

structure WorkflowResult where
  sources : List SearchResult
  synthesis : SynthesisResult
  partialFailures : List (String × String)
deriving DecidableEq

structure RunOutcome where
  result : Except WError WorkflowResult
  trace : List WState
  networkCalls : Nat

/-- Number of provider attempts consumed by the search phase. -/
def searchAttempts (sOp : Nat → Except String (List SearchResult)) : Nat :=
  (executeRetry sOp webSearchRetry.maxRetries webSearchRetry.delay).2.length + 1

/-- Number of fetch attempts consumed by extracting one source. -/
def extractAttempts (op : Nat → Except String String) : Nat :=
  (executeRetry op contentExtractorRetry.maxRetries contentExtractorRetry.delay).2.length + 1

def runWorkflow (topic : String) (sOp : Nat → Except String (List SearchResult))
    (eOp : String → Nat → Except String String) : RunOutcome :=
  if isBlank topic then
    ⟨Except.error WError.InvalidTopic, [WState.Idle], 0⟩
  else
    match searchTool topic sOp with
    | Except.error _ =>
      ⟨Except.error WError.SearchUnavailable,
       [WState.Idle, WState.Searching, WState.Failed], searchAttempts sOp⟩
    | Except.ok results =>
      let docs := results.map (fun r => extract (eOp r.url) r.url)
      ⟨Except.ok ⟨results, synthesize docs,
         docs.filterMap (fun d => d.failureReason.map (fun reason => (d.sourceUrl, reason)))⟩,
       [WState.Idle, WState.Searching, WState.Extracting, WState.Synthesizing, WState.Completed],
       searchAttempts sOp + (results.map (fun r => extractAttempts (eOp r.url))).sum⟩

/-- C2: for every blank (empty or whitespace-only) topic, run fails with
InvalidTopic, performs no network call, and never enters the Searching
state. -/
theorem run_blank_topic_fails_fast (topic : String)
    (sOp : Nat → Except String (List SearchResult))
    (eOp : String → Nat → Except String String)
    (h : isBlank topic = true) :
    (runWorkflow topic sOp eOp).result = Except.error WError.InvalidTopic ∧
    (runWorkflow topic sOp eOp).networkCalls = 0 ∧
    WState.Searching ∉ (runWorkflow topic sOp eOp).trace := by
  unfold runWorkflow
  rw [h]
  refine ⟨rfl, rfl, ?_⟩
  simp

/-- C2 witness: a whitespace-only topic evaluated concretely. -/
theorem run_blank_topic_fails_fast_witness :
    (runWorkflow "   " (fun _ => Except.error "unused") (fun _ _ => Except.error "unused")).result =
      Except.error WError.InvalidTopic ∧
    (runWorkflow "   " (fun _ => Except.error "unused") (fun _ _ => Except.error "unused")).networkCalls = 0 := by
  have h := run_blank_topic_fails_fast "   " (fun _ => Except.error "unused")
    (fun _ _ => Except.error "unused") (by decide)
  exact ⟨h.1, h.2.1⟩

/-- C8: the terminal state Failed is reachable only from Searching: whenever
Failed is visited the trace is exactly Idle, Searching, Failed, the run
fails with SearchUnavailable and Extracting is never entered; when the
provider is unreachable on every attempt for a valid topic the run fails
this way; and whenever the search phase succeeds the run never visits
Failed, so per-source extraction failures never lead to Failed. -/
theorem run_failed_only_from_searching (topic : String)
    (sOp : Nat → Except String (List SearchResult))
    (eOp : String → Nat → Except String String) :
    (WState.Failed ∈ (runWorkflow topic sOp eOp).trace →
      (runWorkflow topic sOp eOp).trace = [WState.Idle, WState.Searching, WState.Failed] ∧
      (runWorkflow topic sOp eOp).result = Except.error WError.SearchUnavailable ∧
      WState.Extracting ∉ (runWorkflow topic sOp eOp).trace) ∧
    (isBlank topic = false → ∀ errs : Nat → String,
      (∀ i, sOp i = Except.error (errs i)) →
      (runWorkflow topic sOp eOp).result = Except.error WError.SearchUnavailable ∧
      WState.Extracting ∉ (runWorkflow topic sOp eOp).trace) ∧
    (∀ provided, isBlank topic = false →
      (executeRetry sOp webSearchRetry.maxRetries webSearchRetry.delay).1 =
        Except.ok provided →
      WState.Failed ∉ (runWorkflow topic sOp eOp).trace) := by
  refine ⟨?_, ?_, ?_⟩
  · intro hmem
    by_cases hb : isBlank topic
    · unfold runWorkflow at hmem
      rw [hb] at hmem
      simp at hmem
    · rcases hs : searchTool topic sOp with msg | rs
      · unfold runWorkflow at hmem ⊢
        rw [Bool.not_eq_true] at hb
        rw [hb, hs]
        refine ⟨rfl, rfl, ?_⟩
        simp
      · unfold runWorkflow at hmem
        rw [Bool.not_eq_true] at hb
        rw [hb, hs] at hmem
        simp at hmem
  · intro hb errs hfail
    have hs : searchTool topic sOp = Except.error SearchError.SearchUnavailable := by
      unfold searchTool
      rw [hb, (executeRetry_all_fail sOp webSearchRetry.maxRetries webSearchRetry.delay
        errs hfail ▸ rfl :
        (executeRetry sOp webSearchRetry.maxRetries webSearchRetry.delay).1 =
          Except.error (errs (webSearchRetry.maxRetries - 1)))]
      simp
    unfold runWorkflow
    rw [hb, hs]
    refine ⟨rfl, ?_⟩
    simp
  · intro provided hb hok
    have hs : searchTool topic sOp = Except.ok (provided.take maxResults) := by
      unfold searchTool
      rw [hb, hok]
      simp
    unfold runWorkflow
    rw [hb, hs]
    simp

/-- C8 witness: a concrete unreachable provider run fails with
SearchUnavailable without entering Extracting, and a concrete successful
search with failing extractions never visits Failed. -/
theorem run_failed_only_from_searching_witness :
    ((runWorkflow "x" (fun _ => Except.error "down") (fun _ _ => Except.error "t")).result =
      Except.error WError.SearchUnavailable ∧
     WState.Extracting ∉
      (runWorkflow "x" (fun _ => Except.error "down") (fun _ _ => Except.error "t")).trace) ∧
    WState.Failed ∉
      (runWorkflow "x" (fun _ => Except.ok [⟨"a", "u", "s"⟩]) (fun _ _ => Except.error "t")).trace := by
  constructor
  · exact (run_failed_only_from_searching "x" (fun _ => Except.error "down")
      (fun _ _ => Except.error "t")).2.1 (by decide) (fun _ => "down") (fun _ => rfl)
  · exact (run_failed_only_from_searching "x" (fun _ => Except.ok [⟨"a", "u", "s"⟩])
      (fun _ _ => Except.error "t")).2.2 [⟨"a", "u", "s"⟩] (by decide) rfl

theorem synthesize_keyPoints_le (docs : List ExtractedDocument) :
    (synthesize docs).keyPoints.length ≤ maxKeyPoints :=
  List.length_take_le _ _

theorem synthesize_keyPoints_long (docs : List ExtractedDocument) :
    ∀ p ∈ (synthesize docs).keyPoints, minSentenceLength ≤ p.length := by
  intro p hp
  have hkp : (synthesize docs).keyPoints =
      ((docs.filter (fun d => d.success)).flatMap
        (fun d => eligibleSentences d.text)).take maxKeyPoints := rfl
  rw [hkp] at hp
  have hp' := List.mem_of_mem_take hp
  rw [List.mem_flatMap] at hp'
  obtain ⟨d, _, hpd⟩ := hp'
  unfold eligibleSentences at hpd
  exact of_decide_eq_true (List.mem_filter.mp hpd).2

/-- C4: synthesize always produces at most max_key_points key points (5 per
configuration), each being a source sentence of length at least
min_sentence_length (50 per configuration); consequently every
WorkflowResult produced by a completed run satisfies the key-point bound. -/
theorem synthesize_bounded (docs : List ExtractedDocument) (topic : String)
    (sOp : Nat → Except String (List SearchResult))
    (eOp : String → Nat → Except String String) (r : WorkflowResult)
    (hok : (runWorkflow topic sOp eOp).result = Except.ok r) :
    (synthesize docs).keyPoints.length ≤ maxKeyPoints ∧
    (∀ p ∈ (synthesize docs).keyPoints, minSentenceLength ≤ p.length) ∧
    r.synthesis.keyPoints.length ≤ maxKeyPoints := by
  refine ⟨synthesize_keyPoints_le docs, synthesize_keyPoints_long docs, ?_⟩
  by_cases hb : isBlank topic
  · unfold runWorkflow at hok
    rw [hb] at hok
    simp at hok
  · rcases hs : searchTool topic sOp with msg | rs
    · unfold runWorkflow at hok
      rw [Bool.not_eq_true] at hb
      rw [hb, hs] at hok
      simp at hok
    · unfold runWorkflow at hok
      rw [Bool.not_eq_true] at hb
      rw [hb, hs] at hok
      simp at hok
      rw [← hok]
      exact synthesize_keyPoints_le _

/-- C4 witness: the bound evaluated on empty input and on the result of a
concrete completed run with one source whose extraction fails. -/
theorem synthesize_bounded_witness :
    (synthesize []).keyPoints.length ≤ maxKeyPoints ∧
    (⟨[⟨"t", "u", "s"⟩], ⟨[], []⟩, [("u", "t")]⟩ : WorkflowResult).synthesis.keyPoints.length ≤
      maxKeyPoints := by
  have h := synthesize_bounded [] "x" (fun _ => Except.ok [⟨"t", "u", "s"⟩])
    (fun _ _ => Except.error "t") ⟨[⟨"t", "u", "s"⟩], ⟨[], []⟩, [("u", "t")]⟩ rfl
  exact ⟨h.1, h.2.2⟩

/-! ## HTTP boundary and frontend form

The client side below is embedded from the shipped frontend sources:
fetchResearchResults posts the topic as the single body field to the
research endpoint, and the ResearchForm submit handler stores
response.data.sources (or the empty list when the field is absent), shows a
fixed error message when the request throws, and renders the results view
only when the stored list is non-empty.  The server side of the boundary is
modelled from the spec: the transport layer that maps workflow outcomes to
HTTP statuses is not in the repository excerpt. -/

structure HttpRequest where
  method : String
  url : String
  body : List (String × String)
deriving DecidableEq

/-- The endpoint URL used by the shipped frontend api client and form. -/
def API_URL : String := "http://localhost:8000/api/v1/research"

/-- Embedded from the shipped api client: a POST of the single-field body
to the research endpoint. -/
def fetchResearchResults (topic : String) : HttpRequest :=
  ⟨"POST", API_URL, [("topic", topic)]⟩

inductive ResponseBody where
  | success (sources : List SearchResult) (synthesis : SynthesisResult)
      (partialFailures : List (String × String))
  | failure (message : String)

structure HttpResponse where
  status : Nat
  body : ResponseBody

def is2xx (status : Nat) : Bool := decide (200 ≤ status) && decide (status < 300)

/-- Modelled from the spec: the transport layer serving the research
endpoint (not in the repository excerpt).  A completed run is a 200 whose
body carries sources, synthesis and partialFailures; InvalidTopic and
SearchUnavailable produce a non-2xx response with an error body. -/
def serveResearch (req : HttpRequest) (sOp : Nat → Except String (List SearchResult))
    (eOp : String → Nat → Except String String) : HttpResponse :=
  let topic := (req.body.lookup "topic").getD ""
  match (runWorkflow topic sOp eOp).result with
  | Except.ok r => ⟨200, ResponseBody.success r.sources r.synthesis r.partialFailures⟩
  | Except.error WError.InvalidTopic => ⟨400, ResponseBody.failure "InvalidTopic"⟩
  | Except.error WError.SearchUnavailable => ⟨502, ResponseBody.failure "SearchUnavailable"⟩

/-- The response body as the frontend sees it after JSON parsing: each top
level field may be present or absent. -/
structure ResponseData where
  sources : Option (List SearchResult)
  synthesis : Option SynthesisResult
  partialFailures : Option (List (String × String))

def responseDataOf : ResponseBody → ResponseData
  | ResponseBody.success s y pf => ⟨some s, some y, some pf⟩
  | ResponseBody.failure _ => ⟨none, none, none⟩

/-- The axios client resolves a 2xx response with its parsed data and
rejects (throws) on any non-2xx status or transport failure. -/
def axiosResult (resp : HttpResponse) : Except String ResponseData :=
  if is2xx resp.status then Except.ok (responseDataOf resp.body)
  else Except.error "Request failed"

/-- The fixed message set by the shipped form on a failed request. -/
def errorMessage : String := "Error fetching research results. Please try again."

structure FormState where
  results : List SearchResult
  loading : Bool
  error : String
deriving DecidableEq

/-- Embedded from the shipped ResearchForm submit handler: on success store
response.data.sources or the empty list, on a thrown request store the
fixed error message and leave the results empty. -/
def handleSubmit (outcome : Except String ResponseData) : FormState :=
  match outcome with
  | Except.ok data => ⟨data.sources.getD [], false, ""⟩
  | Except.error _ => ⟨[], false, errorMessage⟩

/-- Embedded from the shipped ResearchForm render: the results view is
shown only when the stored list is non-empty. -/
def rendersResults (s : FormState) : Bool := decide (0 < s.results.length)

/-- C9: every research request is a POST to the /api/v1/research endpoint
whose body is exactly the single field topic; a 200 response carries a body
with sources, synthesis and partialFailures; InvalidTopic and
SearchUnavailable produce a non-2xx response with an error body, which the
client surfaces as a failure. -/
theorem http_contract (topic : String) (sOp : Nat → Except String (List SearchResult))
    (eOp : String → Nat → Except String String) :
    (fetchResearchResults topic).method = "POST" ∧
    (fetchResearchResults topic).url = "http://localhost:8000/api/v1/research" ∧
    (fetchResearchResults topic).url = "http://localhost:8000" ++ "/api/v1/research" ∧
    (fetchResearchResults topic).body = [("topic", topic)] ∧
    ((serveResearch (fetchResearchResults topic) sOp eOp).status = 200 →
      ∃ s y pf, (serveResearch (fetchResearchResults topic) sOp eOp).body =
        ResponseBody.success s y pf) ∧
    (∀ err, (runWorkflow topic sOp eOp).result = Except.error err →
      is2xx (serveResearch (fetchResearchResults topic) sOp eOp).status = false ∧
      (∃ m, (serveResearch (fetchResearchResults topic) sOp eOp).body =
        ResponseBody.failure m) ∧
      (handleSubmit (axiosResult (serveResearch (fetchResearchResults topic) sOp eOp))).error =
        errorMessage) := by
  have htop : serveResearch (fetchResearchResults topic) sOp eOp =
      (match (runWorkflow topic sOp eOp).result with
       | Except.ok r => ⟨200, ResponseBody.success r.sources r.synthesis r.partialFailures⟩
       | Except.error WError.InvalidTopic => ⟨400, ResponseBody.failure "InvalidTopic"⟩
       | Except.error WError.SearchUnavailable =>
         ⟨502, ResponseBody.failure "SearchUnavailable"⟩) := rfl
  refine ⟨rfl, rfl, (by decide : API_URL = "http://localhost:8000" ++ "/api/v1/research"), rfl, ?_, ?_⟩
  · intro h200
    rcases hres : (runWorkflow topic sOp eOp).result with err | r
    · rw [htop, hres] at h200
      cases err <;> simp at h200
    · rw [htop, hres]
      exact ⟨r.sources, r.synthesis, r.partialFailures, rfl⟩
  · intro err hres
    rw [htop, hres]
    cases err
    · exact ⟨rfl, ⟨"InvalidTopic", rfl⟩, rfl⟩
    · exact ⟨rfl, ⟨"SearchUnavailable", rfl⟩, rfl⟩

/-- C9 witness: a concrete run with an unreachable provider produces a
non-2xx error response that the form surfaces as the fixed error message. -/
theorem http_contract_witness :
    (fetchResearchResults "x").method = "POST" ∧
    is2xx (serveResearch (fetchResearchResults "x") (fun _ => Except.error "down")
      (fun _ _ => Except.error "t")).status = false ∧
    (handleSubmit (axiosResult (serveResearch (fetchResearchResults "x")
      (fun _ => Except.error "down") (fun _ _ => Except.error "t")))).error = errorMessage := by
  have h := http_contract "x" (fun _ => Except.error "down") (fun _ _ => Except.error "t")
  have h6 := h.2.2.2.2.2 WError.SearchUnavailable rfl
  exact ⟨h.1, h6.1, h6.2.2⟩

/-- C10: the displayed results equal the sources field of the response body
when it is present and the empty list when it is absent; the synthesis and
partialFailures fields are never read; a thrown request yields the fixed
error message with an empty results list, so the results view is never
rendered from a failed request. -/
theorem form_displays_sources_only (d d₁ d₂ : ResponseData) (l : List SearchResult)
    (msg : String) :
    (d.sources = some l → (handleSubmit (Except.ok d)).results = l) ∧
    (d.sources = none → (handleSubmit (Except.ok d)).results = []) ∧
    (d₁.sources = d₂.sources → handleSubmit (Except.ok d₁) = handleSubmit (Except.ok d₂)) ∧
    handleSubmit (Except.error msg) = ⟨[], false, errorMessage⟩ ∧
    rendersResults (handleSubmit (Except.error msg)) = false := by
  refine ⟨?_, ?_, ?_, rfl, rfl⟩
  · intro h
    simp [handleSubmit, h]
  · intro h
    simp [handleSubmit, h]
  · intro h
    simp [handleSubmit, h]

/-- C10 witness: the behaviour evaluated on a concrete present sources
field, a concrete absent one, two bodies differing only outside sources,
and a concrete thrown request. -/
theorem form_displays_sources_only_witness :
    (handleSubmit (Except.ok ⟨some [⟨"t", "u", "s"⟩], none, none⟩)).results = [⟨"t", "u", "s"⟩] ∧
    (handleSubmit (Except.ok ⟨none, some ⟨["k"], []⟩, some [("u", "r")]⟩)).results = [] ∧
    handleSubmit (Except.ok ⟨some [], some ⟨["k"], []⟩, none⟩) =
      handleSubmit (Except.ok ⟨some [], none, some [("u", "r")]⟩) ∧
    rendersResults (handleSubmit (Except.error "boom")) = false := by
  refine ⟨?_, ?_, ?_, ?_⟩
  · exact (form_displays_sources_only ⟨some [⟨"t", "u", "s"⟩], none, none⟩
      ⟨none, none, none⟩ ⟨none, none, none⟩ [⟨"t", "u", "s"⟩] "boom").1 rfl
  · exact (form_displays_sources_only ⟨none, some ⟨["k"], []⟩, some [("u", "r")]⟩
      ⟨none, none, none⟩ ⟨none, none, none⟩ [] "boom").2.1 rfl
  · exact (form_displays_sources_only ⟨none, none, none⟩ ⟨some [], some ⟨["k"], []⟩, none⟩
      ⟨some [], none, some [("u", "r")]⟩ [] "boom").2.2.1 rfl
  · exact (form_displays_sources_only ⟨none, none, none⟩ ⟨none, none, none⟩
      ⟨none, none, none⟩ [] "boom").2.2.2.2
